import Mathlib

/-!
Verification of the secure-proxy-gateway core against its specification.

The Python sources are shallowly embedded: Python strings are Lean `String`s
and the string methods used by the gateway (`upper`, `lower`, `startswith`,
`lstrip`, `rstrip`) are modelled as total functions on the underlying
character list.  Python dicts that the code iterates in insertion order are
modelled as association lists, Python sets as lists queried by membership.
The filesystem is modelled as a partial map from paths to file contents.
-/

namespace SPG

/-- Model of the Python string method upper, restricted to basic latin
letters, matching how the gateway compares HTTP method names. -/
def pyUpper (s : String) : String := ⟨s.data.map Char.toUpper⟩

/-- Model of the Python string method lower, restricted to basic latin
letters, matching how the gateway compares header names. -/
def pyLower (s : String) : String := ⟨s.data.map Char.toLower⟩

/-- Model of the Python string method startswith: plain character-prefix
test, exactly as `path.startswith(route.path)` behaves in the source. -/
def pyStartsWith (s pre : String) : Bool := pre.data.isPrefixOf s.data

/-- Model of the Python string method lstrip with no argument: drop leading
whitespace. -/
def pyLstrip (s : String) : String := ⟨s.data.dropWhile Char.isWhitespace⟩

/-- Model of the Python call rstrip with the single-character argument
slash, used on the route target when building the upstream URL. -/
def pyRstripSlash (s : String) : String :=
  ⟨(s.data.reverse.dropWhile (fun c => c = '/')).reverse⟩

/-! ## Data model (src/secure_proxy_gateway/core/models.py) -/

/-- TimeoutConfig from models.py.  Durations are floats in the source; the
claims under verification never depend on fractional values, so they are
modelled as naturals. -/
structure TimeoutConfig where
  connect : Nat := 5
  read : Nat := 30
  write : Nat := 30
deriving Repr, DecidableEq

/-- ProxyConfig from models.py. -/
structure ProxyConfig where
  timeout : TimeoutConfig := {}
  max_response_size : Nat := 10 * 1024 * 1024
  strip_headers : List String :=
    ["Host", "Connection", "Transfer-Encoding", "Upgrade",
     "Proxy-Connection", "Proxy-Authenticate", "Proxy-Authorization"]
deriving Repr, DecidableEq

/-- ServerConfig from models.py. -/
structure ServerConfig where
  port : Nat := 8000
  host : String := "127.0.0.1"
  admin_host : String := "127.0.0.1"
deriving Repr, DecidableEq

/-- RequestRules from models.py.  The dict fields are association lists in
Python insertion order; `del_params` is a list as in the source. -/
structure RequestRules where
  add_params : List (String × String) := []
  add_headers : List (String × String) := []
  del_params : List String := []
deriving Repr, DecidableEq

/-- MaskRule from models.py (pattern length and compilability are checked
by the validator at load time, not used by the masking claims). -/
structure MaskRule where
  pattern : String
  replacement : String
deriving Repr, DecidableEq

/-- ResponseRules from models.py. -/
structure ResponseRules where
  mask_regex : List MaskRule := []
deriving Repr, DecidableEq

/-- RouteConfig from models.py. -/
structure RouteConfig where
  name : String
  path : String
  target : String
  method : String := "*"
  description : Option String := none
  request_rules : RequestRules := {}
  response_rules : ResponseRules := {}
deriving Repr, DecidableEq

/-- SystemConfig from models.py. -/
structure SystemConfig where
  server : ServerConfig := {}
  proxy : ProxyConfig := {}
  routes : List RouteConfig := []
deriving Repr, DecidableEq

/-! ## Route matcher (src/secure_proxy_gateway/proxy/engine.py, match_route) -/

/-- Line 24 of engine.py: candidates are the routes whose path is a plain
string prefix of the request path. -/
def routeCandidates (path : String) (routes : List RouteConfig) : List RouteConfig :=
  routes.filter (fun route => pyStartsWith path route.path)

/-- Line 28 of engine.py: the Python max over the candidate path lengths,
written as a fold (equal to the Python max on a non-empty list). -/
def maxPathLen (candidates : List RouteConfig) : Nat :=
  candidates.foldl (fun acc r => Nat.max acc r.path.length) 0

/-- match_route from engine.py, lines 17 to 38: longest-prefix match with
two-phase method disambiguation. -/
def match_route (path method : String) (routes : List RouteConfig) :
    Option RouteConfig × Bool :=
  match routeCandidates path routes with
  | [] => (none, false)
  | c :: cs =>
    let candidates := c :: cs
    let max_len := maxPathLen candidates
    let best := candidates.filter (fun r => r.path.length == max_len)
    let method_upper := pyUpper method
    match best.find? (fun r => r.method != "*" && pyUpper r.method == method_upper) with
    | some route => (some route, true)
    | none =>
      match best.find? (fun r => r.method == "*") with
      | some route => (some route, true)
      | none => (none, true)

/-- Modelled from the words of the specification, section 4.2, for the
refinement comparison with `match_route`: within the longest-prefix tie set
prefer the first route whose method equals the incoming method
case-insensitively, else the first with a wildcard method, else report a
method miss. -/
def match_route_spec (path method : String) (routes : List RouteConfig) :
    Option RouteConfig × Bool :=
  match routeCandidates path routes with
  | [] => (none, false)
  | c :: cs =>
    let candidates := c :: cs
    let max_len := maxPathLen candidates
    let best := candidates.filter (fun r => r.path.length == max_len)
    match best.find? (fun r => pyUpper r.method == pyUpper method) with
    | some route => (some route, true)
    | none =>
      match best.find? (fun r => r.method == "*") with
      | some route => (some route, true)
      | none => (none, true)

/-! ## Forwarding engine, request side (src/secure_proxy_gateway/proxy/engine.py) -/

/-- merge_params from engine.py, lines 41 to 57: keep incoming pairs whose
key is neither deleted nor overridden, then append the configured
additions that are not deleted.  The Python append loop over
`rules.add_params.items()` is written as a filter appended at the end. -/
def merge_params (query_params : List (String × String)) (rules : RequestRules) :
    List (String × String) :=
  let del_keys := rules.del_params
  let add_keys := rules.add_params.map Prod.fst
  let merged := query_params.filter
    (fun kv => !(del_keys.contains kv.1) && !(add_keys.contains kv.1))
  merged ++ rules.add_params.filter (fun kv => !(del_keys.contains kv.1))

/-- Python dict update with a single key: overwrite the value when the key
is present (case-sensitive, as in the source dict), else append. -/
def dictUpdate (d : List (String × String)) (kv : String × String) :
    List (String × String) :=
  if d.any (fun p => p.1 == kv.1) then
    d.map (fun p => if p.1 == kv.1 then (p.1, kv.2) else p)
  else d ++ [kv]

/-- clean_headers from engine.py, lines 60 to 67: drop headers whose
lowercased name is in the strip list, then apply the configured additions
with dict-update semantics. -/
def clean_headers (headers : List (String × String)) (strip_list : List String)
    (add_headers : List (String × String)) : List (String × String) :=
  let blacklist := strip_list.map pyLower
  let cleaned := headers.filter (fun kv => !(blacklist.contains (pyLower kv.1)))
  add_headers.foldl dictUpdate cleaned

/-- The incoming request as the engine reads it: method, URL path, headers,
multi-valued query parameters and raw body. -/
structure RequestModel where
  method : String
  url_path : String
  headers : List (String × String)
  query_params : List (String × String)
  body : String
deriving Repr, DecidableEq

/-- Case-insensitive header lookup, as the starlette headers mapping
behaves under `request.headers.get`. -/
def headerGet (headers : List (String × String)) (name : String) : Option String :=
  (headers.find? (fun kv => pyLower kv.1 == pyLower name)).map Prod.snd

/-- The private helper request_id from engine.py, lines 70 to 72: use the
incoming X-Request-Id header when present and non-empty, else the fresh
token (first eight characters of a v4 UUID in the source, abstracted as the
`fresh` argument). -/
def requestId (request : RequestModel) (fresh : String) : String :=
  match headerGet request.headers "X-Request-Id" with
  | some v => if v = "" then fresh else v
  | none => fresh

/-- The JSON body emitted by error_response. -/
structure ErrorBody where
  error : String
  request_id : String
  path : String
deriving Repr, DecidableEq

/-- The JSONResponse produced by error_response: status, JSON body, and the
X-Request-Id header set on it. -/
structure JSONErrorResponse where
  status_code : Nat
  body : ErrorBody
  x_request_id : String
deriving Repr, DecidableEq

/-- error_response from engine.py, lines 75 to 92.  The Python default
`request_id or _request_id(request)` treats both a missing and an empty
argument as absent. -/
def error_response (status_code : Nat) (message : String) (request : RequestModel)
    (request_id? : Option String) (fresh : String) : JSONErrorResponse :=
  let rid := match request_id? with
    | some v => if v = "" then requestId request fresh else v
    | none => requestId request fresh
  { status_code := status_code
    body := { error := message, request_id := rid, path := request.url_path }
    x_request_id := rid }

/-- Upstream path computation from forward_request, engine.py lines 142 to
146: strip the route path prefix (defensively keeping the whole path when
it is not a prefix), then normalise to a leading slash. -/
def upstream_path (request_path route_path : String) : String :=
  let up : List Char :=
    if pyStartsWith request_path route_path then request_path.data.drop route_path.length
    else request_path.data
  match up with
  | [] => "/"
  | c :: _ => if c = '/' then ⟨up⟩ else ⟨'/' :: up⟩

/-- Upstream URL from engine.py line 147: target with trailing slashes
stripped, concatenated with the normalised suffix. -/
def upstream_url (target up_path : String) : String :=
  pyRstripSlash target ++ up_path

/-- The transport-level failure classes raised by the upstream client that
forward_request distinguishes, in the order of its except clauses. -/
inductive UpstreamFailure where
  | connectFailure
  | timeoutFailure
  | otherTransportFailure
deriving Repr, DecidableEq

/-- The upstream response as the engine reads it. -/
structure UpstreamResponse where
  status_code : Nat
  headers : List (String × String)
  body : String
deriving Repr, DecidableEq

/-- The request handed to the upstream client by build_request. -/
structure UpstreamRequest where
  method : String
  url : String
  params : List (String × String)
  headers : List (String × String)
  content : String
deriving Repr, DecidableEq

/-- Outcome of forward_request: either one of the mapped error responses,
or the upstream response handed on to process_response together with the
request that was sent and the derived request id. -/
inductive ForwardResult where
  | errorResp (r : JSONErrorResponse)
  | upstream (req : UpstreamRequest) (resp : UpstreamResponse) (request_id : String)
deriving Repr, DecidableEq

/-- forward_request from engine.py, lines 136 to 198, up to the hand-off to
process_response.  The network send is a parameter: `sendResult` is what
`client.send` produced for the built request, either a response or one of
the transport failures. -/
def forward_request (request : RequestModel) (route : RouteConfig)
    (config : SystemConfig) (fresh : String)
    (sendResult : Except UpstreamFailure UpstreamResponse) : ForwardResult :=
  let request_id := requestId request fresh
  let up_url := upstream_url route.target (upstream_path request.url_path route.path)
  let req_params := merge_params request.query_params route.request_rules
  let req_headers := clean_headers request.headers config.proxy.strip_headers
    route.request_rules.add_headers
  match sendResult with
  | .error .connectFailure =>
    .errorResp (error_response 502 "Bad Gateway" request (some request_id) fresh)
  | .error .timeoutFailure =>
    .errorResp (error_response 504 "Gateway Timeout" request (some request_id) fresh)
  | .error .otherTransportFailure =>
    .errorResp (error_response 502 "Bad Gateway" request (some request_id) fresh)
  | .ok resp =>
    .upstream
      { method := request.method, url := up_url, params := req_params,
        headers := req_headers, content := request.body }
      resp request_id

/-! ## Masking engine (src/proxy/masking.py)

`mask_content` folds `re.sub` over the declared rules.  The regex engine is
external to the repository, so `mask_content` is parametrised by the
substitution function; `pyRegexSub` below is an executable model of
Python re.sub restricted to the pattern family the verified claims use:
concatenations of digit groups such as backslash-d repeated a fixed number
of times, optionally parenthesised into capture groups, with replacement
templates made of literal characters and numbered group references.
Patterns outside this family are left uninterpreted (content returned
unchanged). -/

/-- One digit group of a pattern: how many digits, and whether the group
is capturing. -/
structure DigitGroup where
  len : Nat
  captured : Bool
deriving Repr, DecidableEq

/-- Read a decimal number from the front of a character list. -/
def parseDecimal (cs : List Char) : Option (Nat × List Char) :=
  let ds := cs.takeWhile Char.isDigit
  if ds.isEmpty then none
  else some (ds.foldl (fun a c => a * 10 + (c.toNat - 48)) 0, cs.dropWhile Char.isDigit)

/-- Parse a pattern of the supported digit-group family; `fuel` bounds the
recursion by the pattern length. -/
def parseGroupsAux : Nat → List Char → Option (List DigitGroup)
  | _, [] => some []
  | 0, _ :: _ => none
  | fuel + 1, '(' :: '\\' :: 'd' :: '\x7b' :: rest =>
    match parseDecimal rest with
    | some (n, '\x7d' :: ')' :: rest') =>
      (parseGroupsAux fuel rest').map (fun gs => ⟨n, true⟩ :: gs)
    | _ => none
  | fuel + 1, '\\' :: 'd' :: '\x7b' :: rest =>
    match parseDecimal rest with
    | some (n, '\x7d' :: rest') =>
      (parseGroupsAux fuel rest').map (fun gs => ⟨n, false⟩ :: gs)
    | _ => none
  | _, _ => none

/-- Parse a pattern string into its digit groups, rejecting patterns whose
total width is zero (zero-width re.sub semantics are not modelled). -/
def parseGroups (pattern : String) : Option (List DigitGroup) :=
  match parseGroupsAux pattern.data.length pattern.data with
  | some gs => if gs.foldl (fun a g => a + g.len) 0 = 0 then none else some gs
  | none => none

/-- One item of a replacement template: a literal character or a numbered
reference to a capture group. -/
inductive TmplItem where
  | lit (c : Char)
  | ref (n : Nat)
deriving Repr, DecidableEq

/-- Parse a replacement string: backslash followed by a digit is a group
reference, anything else is literal. -/
def parseTemplate : List Char → Option (List TmplItem)
  | [] => some []
  | '\\' :: c :: rest =>
    if c.isDigit then (parseTemplate rest).map (fun t => TmplItem.ref (c.toNat - 48) :: t)
    else none
  | c :: rest => (parseTemplate rest).map (fun t => TmplItem.lit c :: t)

/-- Match exactly `n` digits at the front of the input. -/
def matchDigits : Nat → List Char → Option (List Char × List Char)
  | 0, cs => some ([], cs)
  | _ + 1, [] => none
  | n + 1, c :: cs =>
    if c.isDigit then (matchDigits n cs).map (fun p => (c :: p.1, p.2)) else none

/-- Match a sequence of digit groups at the front of the input, returning
the captured group texts in order and the remaining input. -/
def matchGroups : List DigitGroup → List Char → Option (List (List Char) × List Char)
  | [], cs => some ([], cs)
  | g :: gs, cs =>
    match matchDigits g.len cs with
    | none => none
    | some (d, rest) =>
      match matchGroups gs rest with
      | none => none
      | some (caps, rest') =>
        some ((if g.captured then d :: caps else caps), rest')

/-- Instantiate a replacement template with the captured groups.  A
reference outside the captured range renders as empty (the verified claims
only use in-range references). -/
def renderTemplate (tmpl : List TmplItem) (caps : List (List Char)) : List Char :=
  tmpl.foldr
    (fun item acc =>
      match item with
      | .lit c => c :: acc
      | .ref n => (caps.getD (n - 1) []) ++ acc)
    []

/-- Leftmost non-overlapping substitution scan of re.sub: at each position
try the pattern; on a match emit the rendered template and continue after
the consumed text, else emit the character and advance.  `fuel` bounds the
recursion by the input length; every successful match of a pattern accepted
by `parseGroups` consumes at least one character. -/
def reSubScan (gs : List DigitGroup) (tmpl : List TmplItem) :
    Nat → List Char → List Char
  | 0, cs => cs
  | fuel + 1, cs =>
    match matchGroups gs cs with
    | some (caps, rest) =>
      if rest.length < cs.length then
        renderTemplate tmpl caps ++ reSubScan gs tmpl fuel rest
      else cs
    | none =>
      match cs with
      | [] => []
      | c :: cs' => c :: reSubScan gs tmpl fuel cs'

/-- Executable model of Python re.sub for the supported pattern family;
outside it the content is returned unchanged. -/
def pyRegexSub (pattern replacement content : String) : String :=
  match parseGroups pattern, parseTemplate replacement.data with
  | some gs, some tmpl => ⟨reSubScan gs tmpl (content.data.length + 1) content.data⟩
  | _, _ => content

/-- mask_content from src/proxy/masking.py, lines 15 to 20: fold the
substitution over the rules in declared order, each step operating on the
output of the previous one.  The regex engine is the `regexSub`
parameter. -/
def mask_content (regexSub : String → String → String → String)
    (content : String) (rules : List MaskRule) : String :=
  rules.foldl (fun masked rule => regexSub rule.pattern rule.replacement masked) content

/-! ## Config store (src/secure_proxy_gateway/core/config_mgr.py)

The filesystem is a partial map from path strings to file contents.  The
directory creation, the process-wide write lock and the sibling temp file
of `_atomic_write_text` have no observable effect in this single-writer
model: the temp file is renamed over the target or unlinked, so the net
effect on the map is the backup copy followed by the target update. -/

/-- The filesystem view: path to contents, `none` when absent. -/
def FS := String → Option String

/-- The two config formats of config_mgr.py. -/
inductive ConfigFormat where
  | yaml
  | json
deriving Repr, DecidableEq

/-- detect_config_format from config_mgr.py, lines 46 to 51: empty or
all-whitespace text is yaml, text whose first non-whitespace character is
an opening brace or bracket is json, anything else yaml. -/
def detect_config_format (text : String) : ConfigFormat :=
  match (pyLstrip text).data with
  | [] => .yaml
  | c :: _ => if c = '\x7b' || c = '[' then .json else .yaml

/-- The private helper load_raw_text from config_mgr.py, lines 54 to 57:
file contents, or the empty string when the file does not exist. -/
def loadRawText (fs : FS) (path : String) : String :=
  (fs path).getD ""

/-- The atomic write from config_mgr.py, lines 66 to 82: when the target
exists, first copy it to the sibling backup path, then replace the target
with the new contents. -/
def atomic_write_text (fs : FS) (path content : String) : FS :=
  let fs1 : FS :=
    match fs path with
    | some old => fun p => if p = path ++ ".bak" then some old else fs p
    | none => fs
  fun p => if p = path then some content else fs1 p

/-- read_raw_config from config_mgr.py, lines 85 to 89: raw contents plus
the format detected from them.  The explicit path argument is returned
verbatim by resolve_config_path, so resolution is the identity here. -/
def read_raw_config (fs : FS) (path : String) : String × ConfigFormat :=
  let content := loadRawText fs path
  (content, detect_config_format content)

/-- save_config_raw from config_mgr.py, lines 151 to 174: parse and
validate the supplied text under the requested format, raising ConfigError
on failure, and only then write the exact bytes.  Parsing and pydantic
validation live in external libraries and are supplied as the
`parseValidate` parameter; the format-name check of lines 157 to 160 is
vacuous once the format is the `ConfigFormat` type. -/
def save_config_raw (parseValidate : String → ConfigFormat → Except String SystemConfig)
    (fs : FS) (content : String) (fmt : ConfigFormat) (path : String) :
    Except String (FS × SystemConfig) :=
  match parseValidate content fmt with
  | .error e => .error e
  | .ok cfg => .ok (atomic_write_text fs path content, cfg)

/-! ## Runtime state and hot reload (src/secure_proxy_gateway/core/runtime.py) -/

/-- The fields of app.state that runtime.py reads and writes.  The mtime is
a float in the source, modelled as a natural tick count; the http client is
identified by an opaque token. -/
structure AppState where
  config_path : String
  config_format : ConfigFormat
  config : SystemConfig
  http_client : Nat
  config_mtime : Nat
  http_client_sig : Nat × Nat × Nat
deriving Repr, DecidableEq

/-- The private helper proxy_timeout_signature from runtime.py, lines 11
to 13. -/
def proxy_timeout_signature (config : SystemConfig) : Nat × Nat × Nat :=
  (config.proxy.timeout.connect, config.proxy.timeout.read, config.proxy.timeout.write)

deriving instance DecidableEq for Except

/-- What the reload path observes on disk, taken as one snapshot: the stat
result (`none` is FileNotFoundError), the outcome of load_config (parse
plus validation, ConfigError as `Except.error`), and the format that
read_raw_config detects. -/
structure DiskView where
  statMtime : Option Nat
  loadResult : Except String SystemConfig
  rawFormat : ConfigFormat
deriving Repr, DecidableEq

/-- apply_config from runtime.py, lines 34 to 55: optionally update the
stored format, swap the config, refresh the mtime watermark from disk, and
rebuild the http client only when the timeout signature changed (the old
client is closed later; `freshClient` is the token of the newly created
client). -/
def apply_config (state : AppState) (disk : DiskView) (config : SystemConfig)
    (fmt : Option ConfigFormat) (freshClient : Nat) : AppState :=
  let st := match fmt with
    | some f => { state with config_format := f }
    | none => state
  let st := { st with
    config := config
    config_mtime := disk.statMtime.getD 0 }
  let new_sig := proxy_timeout_signature config
  if st.http_client_sig = new_sig then st
  else { st with http_client := freshClient, http_client_sig := new_sig }

/-- maybe_reload_app_config from runtime.py, lines 58 to 79: return
untouched when the file is missing or the mtime is not newer than the
watermark (checked again under the reload lock, against the same disk
snapshot here); otherwise run load_config and read_raw_config and apply.
load_config raises ConfigError on a bad file and nothing in this function
catches it, so the failure is returned as `Except.error`. -/
def maybe_reload_app_config (state : AppState) (disk : DiskView)
    (freshClient : Nat) : Except String AppState :=
  match disk.statMtime with
  | none => .ok state
  | some mtime =>
    if mtime ≤ state.config_mtime then .ok state
    else
      if mtime ≤ state.config_mtime then .ok state
      else
        match disk.loadResult with
        | .error e => .error e
        | .ok config =>
          .ok (apply_config state disk config (some disk.rawFormat) freshClient)

/-! ## Admin access check (src/secure_proxy_gateway/web/routers.py) -/

/-- ensure_admin_access from routers.py, lines 31 to 41.  The peer address
is `none` when the request carries no client; the Python truthiness test
also rejects an empty host string.  The loopback predicate wraps the
ipaddress library and is a parameter.  The final non-equality guard of the
source is always true when reached, so its branch is the terminal
rejection. -/
def ensure_admin_access (isLoopback : String → Bool)
    (clientHost : Option String) (adminHost : String) : Except (Nat × String) Unit :=
  match clientHost with
  | none => .error (403, "Admin interface restricted")
  | some h =>
    if h = "" then .error (403, "Admin interface restricted")
    else if h = adminHost then .ok ()
    else if isLoopback h && isLoopback adminHost then .ok ()
    else .error (403, "Admin interface restricted")

/-! ## Helper lemmas -/

/-- Uppercasing a character yields the asterisk only for the asterisk
itself: the uppercase branch lands in the latin capital range, which does
not contain the asterisk. -/
theorem charToUpper_eq_star {c : Char} (h : c.toUpper = '*') : c = '*' := by
  simp only [Char.toUpper] at h
  split at h
  · exfalso
    rename_i hrange
    have hv : Nat.isValidChar (c.toNat - 32) := Or.inl (by omega)
    have ht : (Char.ofNat (c.toNat - 32)).toNat = c.toNat - 32 := by
      rw [Char.ofNat, dif_pos hv]
      rfl
    rw [h] at ht
    have h42 : (42 : Nat) = c.toNat - 32 := ht
    omega
  · exact h

/-- The model of the Python upper method sends a string to the asterisk
string only if it is the asterisk string. -/
theorem pyUpper_eq_star_iff (s : String) : pyUpper s = "*" ↔ s = "*" := by
  constructor
  · intro h
    cases s with
    | mk l =>
      have hd : l.map Char.toUpper = "*".data := congrArg String.data h
      cases l with
      | nil => simp at hd
      | cons c t =>
        cases t with
        | nil =>
          have h2 : [c.toUpper] = ['*'] := hd
          have hc : c.toUpper = '*' := by simpa using h2
          rw [charToUpper_eq_star hc]
        | cons d u =>
          have := congrArg List.length hd
          simp at this
  · intro h
    rw [h]
    rfl

/-- Appending the backup suffix changes the string. -/
theorem append_bak_ne (p : String) : p ++ ".bak" ≠ p := by
  intro h
  have hlen := congrArg (fun s => s.data.length) h
  cases p with
  | mk l =>
    have hl : (l ++ ".bak".data).length = l.length := hlen
    rw [List.length_append] at hl
    simp at hl

/-- After an atomic write the target holds the new contents. -/
theorem atomic_write_target (fs : FS) (path content : String) :
    atomic_write_text fs path content path = some content := by
  unfold atomic_write_text
  simp

/-- After an atomic write over an existing target, the backup path holds
the previous contents. -/
theorem atomic_write_backup (fs : FS) (path content old : String)
    (h : fs path = some old) :
    atomic_write_text fs path content (path ++ ".bak") = some old := by
  unfold atomic_write_text
  rw [h]
  simp [append_bak_ne path]

/-! ## Claims -/

/-- Claim C10: when the admin check cannot determine a peer address
(the request has no client), it rejects with status 403 and detail
Admin interface restricted, exactly as for a non-matching peer. -/
theorem ensure_admin_access_no_peer (isLoopback : String → Bool) (adminHost : String) :
    ensure_admin_access isLoopback none adminHost =
      .error (403, "Admin interface restricted") := rfl

/-- Claim C9: mask_content applies the rules in declared order, each
substitution operating on the output of the previous one, and the rule
masking the middle four digits of an eleven-digit phone number rewrites the
sample body as the specification states. -/
theorem mask_content_order_and_phone :
    (∀ (regexSub : String → String → String → String) (content : String)
        (rule : MaskRule) (rules : List MaskRule),
      mask_content regexSub content (rule :: rules) =
        mask_content regexSub (regexSub rule.pattern rule.replacement content) rules) ∧
    mask_content pyRegexSub "Phone: 13812345678"
      [⟨"(\\d{3})\\d{4}(\\d{4})", "\\1****\\2"⟩] = "Phone: 138****5678" :=
  ⟨fun _ _ _ _ => rfl, by decide⟩

/-- Route fixture with the prefix path used by the matcher claims. -/
def apiRoute : RouteConfig :=
  { name := "short", path := "/api", target := "https://example.com" }

/-- Counterexample to claim C2 as stated: under the plain string-prefix
test of engine.py line 24, the route with path /api IS collected as a
candidate for the request path /apix, and is in fact matched. -/
theorem route_candidates_cex :
    routeCandidates "/apix" [apiRoute] = [apiRoute] ∧
    match_route "/apix" "GET" [apiRoute] = (some apiRoute, true) := by
  constructor
  · decide
  · decide

/-- Claim C2 as amended: the candidates are exactly the routes whose path
is a plain character prefix of the request path, with no path-segment
boundary check, so /api is a candidate for /api/x and also for /apix. -/
theorem route_candidates_iff_string_prefix (path : String) (routes : List RouteConfig)
    (r : RouteConfig) :
    r ∈ routeCandidates path routes ↔ r ∈ routes ∧ pyStartsWith path r.path = true := by
  simp [routeCandidates, List.mem_filter]

/-- Claim C5: after a save whose target already exists, the backup path
holds exactly the bytes the target held before the save, and the target
holds the new contents in full. -/
theorem save_backup_and_target (fs : FS) (path old new : String)
    (h : fs path = some old) :
    atomic_write_text fs path new (path ++ ".bak") = some old ∧
    atomic_write_text fs path new path = some new :=
  ⟨atomic_write_backup fs path new old h, atomic_write_target fs path new⟩

/-- Filesystem fixture holding one existing config file. -/
def fsOne : FS := fun p => if p = "config.yaml" then some "old-bytes" else none

/-- Witness for claim C5 at a concrete filesystem. -/
theorem save_backup_and_target_witness :
    fsOne "config.yaml" = some "old-bytes" ∧
    (atomic_write_text fsOne "config.yaml" "new-bytes" ("config.yaml" ++ ".bak")
        = some "old-bytes" ∧
      atomic_write_text fsOne "config.yaml" "new-bytes" "config.yaml" = some "new-bytes") :=
  ⟨by decide, save_backup_and_target fsOne "config.yaml" "old-bytes" "new-bytes" (by decide)⟩

/-- Claim C4 as amended: saving raw text that parses and validates writes
the exact bytes, and reading back returns those bytes together with the
format DETECTED from them; this pair equals the pair of the text and the
requested format precisely when the requested format is the detected
one. -/
theorem save_raw_then_read_raw
    (parseValidate : String → ConfigFormat → Except String SystemConfig)
    (fs : FS) (content : String) (fmt : ConfigFormat) (path : String)
    (fs' : FS) (cfg : SystemConfig)
    (h : save_config_raw parseValidate fs content fmt path = .ok (fs', cfg)) :
    read_raw_config fs' path = (content, detect_config_format content) := by
  unfold save_config_raw at h
  cases hpv : parseValidate content fmt with
  | error e =>
    rw [hpv] at h
    exact absurd h (by simp)
  | ok c =>
    rw [hpv] at h
    simp only [Except.ok.injEq, Prod.mk.injEq] at h
    obtain ⟨hfs, hcfg⟩ := h
    subst hfs
    unfold read_raw_config loadRawText
    rw [atomic_write_target]
    rfl

/-- Parse stub accepting everything, enough to exercise the save path. -/
def pvAccept : String → ConfigFormat → Except String SystemConfig := fun _ _ => .ok {}

/-- Witness for the amended claim C4 at a concrete save. -/
theorem save_raw_then_read_raw_witness :
    save_config_raw pvAccept (fun _ => none) "routes: []" ConfigFormat.yaml "config.yaml"
      = .ok (atomic_write_text (fun _ => none) "config.yaml" "routes: []", {}) ∧
    read_raw_config (atomic_write_text (fun _ => none) "config.yaml" "routes: []")
        "config.yaml"
      = ("routes: []", detect_config_format "routes: []") :=
  ⟨rfl, save_raw_then_read_raw pvAccept (fun _ => none) "routes: []" ConfigFormat.yaml
    "config.yaml" _ {} rfl⟩

/-- Parse model under which the two-character brace text parses and
validates in both formats, as with the real libraries: yaml.safe_load on
that text yields the empty mapping and the empty mapping validates to the
all-default SystemConfig, and so does json.loads. -/
def pvBraces : String → ConfigFormat → Except String SystemConfig := fun _ _ => .ok {}

/-- Filesystem fixture with no files. -/
def fsEmpty : FS := fun _ => none

/-- The filesystem after raw-saving the brace text. -/
def fsAfterBraces : FS := atomic_write_text fsEmpty "config.yaml" "\x7b\x7d"

/-- Counterexample to claim C4 as stated: the brace text parses and
validates under the yaml format and is saved with it, yet reading raw
returns the json format detected from its first character, not yaml. -/
theorem save_raw_read_raw_cex :
    save_config_raw pvBraces fsEmpty "\x7b\x7d" ConfigFormat.yaml "config.yaml"
      = .ok (fsAfterBraces, ({} : SystemConfig)) ∧
    read_raw_config fsAfterBraces "config.yaml" = ("\x7b\x7d", ConfigFormat.json) ∧
    ConfigFormat.json ≠ ConfigFormat.yaml := by
  refine ⟨rfl, by decide, by decide⟩

/-- Claim C3 as amended: when the on-disk mtime exceeds the watermark but
the content fails to parse or validate, the reload check performs no state
update, but the ConfigError PROPAGATES to the caller of the reload check
(nothing in maybe_reload_app_config catches it and runtime.py logs no
warning). -/
theorem maybe_reload_propagates_load_failure (state : AppState) (disk : DiskView)
    (freshClient : Nat) (m : Nat) (e : String)
    (hstat : disk.statMtime = some m) (hnew : state.config_mtime < m)
    (hload : disk.loadResult = .error e) :
    maybe_reload_app_config state disk freshClient = .error e := by
  unfold maybe_reload_app_config
  rw [hstat, hload]
  have hn : ¬ m ≤ state.config_mtime := by omega
  simp [hn]

/-- Runtime-state fixture at watermark zero. -/
def state0 : AppState :=
  { config_path := "config.yaml", config_format := .yaml, config := {},
    http_client := 1, config_mtime := 0, http_client_sig := (5, 30, 30) }

/-- Disk snapshot fixture: newer mtime, invalid content. -/
def diskBad : DiskView :=
  { statMtime := some 5, loadResult := .error "invalid regex", rawFormat := .yaml }

/-- Witness for the amended claim C3 at a concrete state and snapshot. -/
theorem maybe_reload_propagates_witness :
    (diskBad.statMtime = some 5 ∧ state0.config_mtime < 5 ∧
      diskBad.loadResult = .error "invalid regex") ∧
    maybe_reload_app_config state0 diskBad 2 = .error "invalid regex" :=
  ⟨⟨rfl, by decide, rfl⟩,
    maybe_reload_propagates_load_failure state0 diskBad 2 5 "invalid regex" rfl
      (by decide) rfl⟩

/-- Counterexample to claim C3 as stated: at a concrete runtime state and a
disk file that is newer than the watermark but fails to load, the reload
check does not return normally with the state unchanged; the failure
escapes as a ConfigError. -/
theorem maybe_reload_cex :
    maybe_reload_app_config state0 diskBad 3 = Except.error "invalid regex" ∧
    maybe_reload_app_config state0 diskBad 3 ≠ Except.ok state0 := by
  refine ⟨by decide, by decide⟩

/-- Claim C6: every upstream transport failure is returned as an HTTP
error response rather than raised: timeouts map to 504 with the string
Gateway Timeout, connection failures and all other transport failures map
to 502 with Bad Gateway, the JSON body carries the error message, the
request id and the incoming path, and the X-Request-Id header carries the
request id. -/
theorem forward_request_failure_mapping (request : RequestModel) (route : RouteConfig)
    (config : SystemConfig) (fresh : String) (failure : UpstreamFailure) :
    forward_request request route config fresh (.error failure) =
      .errorResp
        { status_code := match failure with
            | .timeoutFailure => 504
            | _ => 502
          body :=
            { error := match failure with
                | .timeoutFailure => "Gateway Timeout"
                | _ => "Bad Gateway"
              request_id := requestId request fresh
              path := request.url_path }
          x_request_id := requestId request fresh } := by
  cases failure <;> simp [forward_request, error_response]

/-- Claim C7: deleted keys are absent from the merged parameter list; for
a key present both in the incoming query and in the additions (and not
deleted) the merged list carries exactly the addition pairs for that key;
and the merged list is the surviving incoming pairs followed by the
surviving added pairs, each group in its original order. -/
theorem merge_params_claim (q : List (String × String)) (rules : RequestRules) :
    (∀ k, k ∈ rules.del_params → ∀ v, (k, v) ∉ merge_params q rules) ∧
    (∀ k, (∃ v, (k, v) ∈ q) → (∃ w, (k, w) ∈ rules.add_params) →
      k ∉ rules.del_params →
      ∀ u, ((k, u) ∈ merge_params q rules ↔ (k, u) ∈ rules.add_params)) ∧
    merge_params q rules =
      q.filter (fun kv => !(rules.del_params.contains kv.1) &&
        !((rules.add_params.map Prod.fst).contains kv.1)) ++
      rules.add_params.filter (fun kv => !(rules.del_params.contains kv.1)) := by
  refine ⟨?_, ?_, rfl⟩
  · intro k hk v hmem
    unfold merge_params at hmem
    rcases List.mem_append.mp hmem with h | h
    · have hcond := (List.mem_filter.mp h).2
      simp [List.contains] at hcond
      exact hcond.1 hk
    · have hcond := (List.mem_filter.mp h).2
      simp [List.contains] at hcond
      exact hcond hk
  · intro k _ hadd hdel u
    constructor
    · intro hmem
      unfold merge_params at hmem
      rcases List.mem_append.mp hmem with h | h
      · have hcond := (List.mem_filter.mp h).2
        simp [List.contains] at hcond
        obtain ⟨w, hw⟩ := hadd
        exact absurd hw (hcond.2 w)
      · exact (List.mem_filter.mp h).1
    · intro hmem
      unfold merge_params
      refine List.mem_append.mpr (Or.inr (List.mem_filter.mpr ⟨hmem, ?_⟩))
      simp [List.contains]
      exact hdel

/-- Request-rules fixture used by the parameter merge witness. -/
def rulesW : RequestRules :=
  { add_params := [("token", "secret")], add_headers := [], del_params := ["debug"] }

/-- Incoming query fixture used by the parameter merge witness. -/
def queryW : List (String × String) := [("debug", "1"), ("token", "old"), ("keep", "x")]

/-- Witness for claim C7 at a concrete query and rule set. -/
theorem merge_params_claim_witness :
    ("debug" ∈ rulesW.del_params ∧ ("debug", "1") ∉ merge_params queryW rulesW) ∧
    (("token", "secret") ∈ merge_params queryW rulesW ↔
      ("token", "secret") ∈ rulesW.add_params) :=
  ⟨⟨by decide, (merge_params_claim queryW rulesW).1 "debug" (by decide) "1"⟩,
    (merge_params_claim queryW rulesW).2.1 "token" ⟨"old", by decide⟩
      ⟨"secret", by decide⟩ (by decide) "secret"⟩

/-- A dict update keeps every key property that both the dictionary and
the inserted pair satisfy. -/
theorem dictUpdate_key_prop (P : String → Prop) (d : List (String × String))
    (kv : String × String) (hd : ∀ p ∈ d, P p.1) (hkv : P kv.1) :
    ∀ p ∈ dictUpdate d kv, P p.1 := by
  intro p hp
  unfold dictUpdate at hp
  split at hp
  · obtain ⟨q, hq, hfq⟩ := List.mem_map.mp hp
    have hkey : p.1 = q.1 := by
      rw [← hfq]
      split
      · rfl
      · rfl
    rw [hkey]
    exact hd q hq
  · rcases List.mem_append.mp hp with h | h
    · exact hd p h
    · have : p = kv := by simpa using h
      rw [this]
      exact hkv

/-- Folding dict updates keeps a key property satisfied by the initial
dictionary and by every inserted pair. -/
theorem foldl_dictUpdate_key_prop (P : String → Prop) :
    ∀ (adds init : List (String × String)),
      (∀ p ∈ init, P p.1) → (∀ kv ∈ adds, P kv.1) →
      ∀ p ∈ adds.foldl dictUpdate init, P p.1
  | [], _, hinit, _ => hinit
  | a :: as, init, hinit, hadds =>
    foldl_dictUpdate_key_prop P as (dictUpdate init a)
      (dictUpdate_key_prop P init a hinit (hadds a (List.mem_cons_self a as)))
      (fun kv h => hadds kv (List.mem_cons_of_mem a h))

/-- Claim C8 as amended: the cleaned header map contains no header whose
lowercased name is the lowercased form of a stripped name, PROVIDED no
add_headers entry reintroduces such a name; the additions are applied after
the strip and can put a stripped name back. -/
theorem clean_headers_strips_when_adds_disjoint (headers : List (String × String))
    (strip_list : List String) (add_headers : List (String × String))
    (hadd : ∀ kv ∈ add_headers, pyLower kv.1 ∉ strip_list.map pyLower) :
    ∀ kv ∈ clean_headers headers strip_list add_headers,
      pyLower kv.1 ∉ strip_list.map pyLower := by
  unfold clean_headers
  refine foldl_dictUpdate_key_prop (fun key => pyLower key ∉ strip_list.map pyLower)
    add_headers _ ?_ hadd
  intro p hp
  have hcond := (List.mem_filter.mp hp).2
  simp [List.contains] at hcond
  simpa using hcond

/-- Counterexample to claim C8 as stated: an add_headers entry named like a
stripped header survives into the cleaned map, because the additions are
applied after the strip. -/
theorem clean_headers_cex :
    ("Host", "internal") ∈
      clean_headers [("Host", "example.com")] ["Host"] [("Host", "internal")] ∧
    pyLower "Host" ∈ ["Host"].map pyLower := by
  refine ⟨by decide, by decide⟩

/-- Witness for the amended claim C8 at a concrete header map. -/
theorem clean_headers_strips_witness :
    (∀ kv ∈ [("X-Extra", "1")], pyLower kv.1 ∉ ["Host"].map pyLower) ∧
    pyLower "X-Token" ∉ ["Host"].map pyLower :=
  ⟨by decide,
    clean_headers_strips_when_adds_disjoint [("Host", "h"), ("X-Token", "t")] ["Host"]
      [("X-Extra", "1")] (by decide) ("X-Token", "t") (by decide)⟩

/-- find? is determined by the pointwise behaviour of its predicate. -/
theorem find?_congr {α : Type} {p q : α → Bool} (h : ∀ a, p a = q a) (l : List α) :
    l.find? p = l.find? q := by
  rw [show p = q from funext h]

/-- Comparing an uppercased string against the asterisk is the same as
comparing the string itself. -/
theorem pyUpper_beq_star (m : String) : (pyUpper m == "*") = (m == "*") := by
  by_cases h : m = "*"
  · rw [h]
    rfl
  · have h2 : pyUpper m ≠ "*" := fun hc => h ((pyUpper_eq_star_iff m).mp hc)
    rw [beq_eq_false_iff_ne.mpr h2, beq_eq_false_iff_ne.mpr h]

/-- The two-phase method selection of match_route agrees with the
specification phrasing on any tie set: excluding wildcard routes from the
exact-method pass changes nothing, because a wildcard method only equals
the uppercased incoming method when that method is itself the wildcard, in
which case the wildcard pass returns the same first wildcard route. -/
theorem two_phase_eq (best : List RouteConfig) (method : String) :
    (match best.find? (fun (r : RouteConfig) => r.method != "*" && pyUpper r.method == pyUpper method) with
     | some route => (some route, true)
     | none =>
       match best.find? (fun (r : RouteConfig) => r.method == "*") with
       | some route => (some route, true)
       | none => ((none : Option RouteConfig), true)) =
    (match best.find? (fun (r : RouteConfig) => pyUpper r.method == pyUpper method) with
     | some route => (some route, true)
     | none =>
       match best.find? (fun (r : RouteConfig) => r.method == "*") with
       | some route => (some route, true)
       | none => ((none : Option RouteConfig), true)) := by
  by_cases hstar : pyUpper method = "*"
  · have hleft :
        best.find? (fun r => r.method != "*" && pyUpper r.method == pyUpper method)
          = none := by
      apply List.find?_eq_none.mpr
      intro r _
      rw [hstar]
      by_cases hr : r.method = "*"
      · simp [hr]
      · have h2 : pyUpper r.method ≠ "*" :=
          fun hcc => hr ((pyUpper_eq_star_iff r.method).mp hcc)
        simp [beq_eq_false_iff_ne.mpr h2]
    have hright :
        best.find? (fun r => pyUpper r.method == pyUpper method)
          = best.find? (fun r => r.method == "*") := by
      apply find?_congr
      intro r
      rw [hstar, pyUpper_beq_star]
    rw [hleft, hright]
    cases best.find? (fun r => r.method == "*") <;> rfl
  · have hpt : ∀ r : RouteConfig,
        (r.method != "*" && pyUpper r.method == pyUpper method)
          = (pyUpper r.method == pyUpper method) := by
      intro r
      by_cases hr : r.method = "*"
      · have h2 : pyUpper "*" ≠ pyUpper method := by
          intro hcc
          have hcc2 : "*" = pyUpper method := hcc
          exact hstar hcc2.symm
        simp [hr, beq_eq_false_iff_ne.mpr h2]
      · have e : (r.method == "*") = false := beq_eq_false_iff_ne.mpr hr
        simp [bne, e]
    rw [find?_congr hpt best]

/-- Claim C1: whenever some route path is a prefix of the request path,
match_route implements the specification selection: restrict to the
longest-prefix tie set, return the first route in configured order whose
method equals the incoming method case-insensitively, else the first
wildcard route, else report a method miss. -/
theorem match_route_refines_spec (path method : String) (routes : List RouteConfig)
    (h : routeCandidates path routes ≠ []) :
    match_route path method routes = match_route_spec path method routes := by
  unfold match_route match_route_spec
  rcases hc : routeCandidates path routes with _ | ⟨c, cs⟩
  · exact absurd hc h
  · exact two_phase_eq
      ((c :: cs).filter (fun r => r.path.length == maxPathLen (c :: cs))) method

/-- Route fixture with the longer prefix path, from the test suite. -/
def usersRoute : RouteConfig :=
  { name := "long", path := "/api/users", target := "https://example.com" }

/-- Witness for claim C1 at the longest-prefix scenario of the test
suite. -/
theorem match_route_refines_spec_witness :
    routeCandidates "/api/users/123" [apiRoute, usersRoute] ≠ [] ∧
    match_route "/api/users/123" "GET" [apiRoute, usersRoute] =
      match_route_spec "/api/users/123" "GET" [apiRoute, usersRoute] :=
  ⟨by decide, match_route_refines_spec "/api/users/123" "GET" [apiRoute, usersRoute]
    (by decide)⟩

end SPG
